import Mathlib

/-!
Shallow embedding of the core of `distributed-api-monitor` (Go):
the HTTP checker (`internal/checker/http.go`), the insight engine
(`internal/ai`, found in the unnamed source part), the web fallback insight
generator (`cmd/web/main.go`), the Postgres storage adapter
(`internal/storage/postgres.go`) and the gRPC endpoint registry
(`internal/grpc/server.go`).

Modelling conventions:
* `time.Duration` values produced by `time.Since` are non-negative, so
  durations are nanosecond counts in `Nat`; Go's integer division on them
  truncates, which on non-negative operands coincides with `Nat` division,
  except that division by zero PANICS in Go, which we model with `Option`
  (`none` = runtime panic).
* The HTTP transport is external: `check` takes the outcome of
  `http.Client.Get` as an explicit argument (`Except` of an error string or
  a status code).
* Goroutine/channel nondeterminism in `CheckMultiple` is modelled by an
  explicit `order : List Nat`: the channel delivers the per-URL outcomes in
  some arbitrary order, i.e. `order` ranges over permutations of the index
  list.
* `float64` confidence values are modelled as exact rationals (they are
  only ever the literals 1.0, 0.9, 0.95, 0.8 and are never computed with).
* `json.Unmarshal` is external library code, passed to `parseInsights` as
  an explicit decoding function.
-/

namespace ApiMonitor

/-- `checker.CheckResult` from `internal/checker/http.go`.
`statusCode` and `responseTime` (nanoseconds) are non-negative in every
execution path of the program, so they are `Nat`; `checkedAt` is an opaque
timestamp. -/
structure CheckResult where
  url : String
  statusCode : Nat
  responseTime : Nat
  isHealthy : Bool
  error : String
  checkedAt : Nat
deriving DecidableEq, Repr

instance : Inhabited CheckResult :=
  ⟨{ url := "", statusCode := 0, responseTime := 0, isHealthy := false,
     error := "", checkedAt := 0 }⟩

/-- `HTTPChecker.Check` from `internal/checker/http.go`.
`resp` is the outcome of `c.client.Get(url)`: `.error e` when the transport
failed with message `e` (DNS, connect, timeout, TLS), `.ok s` when a
response with status code `s` arrived.  `start` is the capture time and
`elapsed` the measured `time.Since(start)`.  The Go function never panics:
it is a total function into `CheckResult`. -/
def check (url : String) (start elapsed : Nat) (resp : Except String Nat) :
    CheckResult :=
  match resp with
  | .error e =>
      { url := url, statusCode := 0, responseTime := elapsed,
        isHealthy := false, error := e, checkedAt := start }
  | .ok s =>
      { url := url, statusCode := s, responseTime := elapsed,
        isHealthy := decide (200 ≤ s ∧ s < 300), error := "",
        checkedAt := start }

/-- `HTTPChecker.CheckMultiple` from `internal/checker/http.go`.
Each goroutine sends `c.Check(u)` into the shared channel `done`; the
collection loop stores the `i`-th RECEIVED result at `results[i]`, so the
output lists the per-URL outcomes in channel-arrival order.  `chk` is the
per-URL check (`c.Check`), and `order` the arrival order: position `i` of
the output holds the outcome for input URL `order[i]`. -/
def checkMultiple (chk : String → CheckResult) (urls : List String)
    (order : List Nat) : List CheckResult :=
  order.map (fun i => (urls.map chk).getD i default)

/-- `ai.Insight` from the `internal/ai` client (unnamed source part).
`confidence` is a Go `float64` that only ever holds the literals
1.0, 0.9, 0.95, 0.8, modelled exactly as rationals. -/
structure Insight where
  title : String
  content : String
  type : String
  confidence : ℚ
  generatedAt : Nat
deriving DecidableEq, Repr

/-- Stand-in for Go's `time.Duration.String` pretty-printer used inside
`fmt.Sprintf("%v", ...)`; no claim depends on this rendering, only on the
duration value fed to it. -/
def durationString (d : Nat) : String :=
  toString d ++ "ns"

/-- `time.Duration.Round` from the Go standard library (round to nearest
multiple of `m`, half away from zero; non-negative operands here). -/
def durationRound (d m : Nat) : Nat :=
  if m = 0 then d
  else
    let r := d % m
    if r + r < m then d - r else d + (m - r)

/-- `GPTOSSClient.fallbackInsights` from the `internal/ai` client.
The Go function computes `avgResponseTime := totalResponseTime /
time.Duration(len(results))` BEFORE any emptiness check; on an empty
result list that is an integer division by zero, a runtime panic,
modelled as `none`. -/
def fallbackInsights (now : Nat) (results : List CheckResult) :
    Option (List Insight) :=
  let unhealthyURLs := (results.filter (fun r => !r.isHealthy)).map
    (fun r => r.url)
  let unhealthy := unhealthyURLs.length
  let totalResponseTime := (results.map (fun r => r.responseTime)).sum
  let slowEndpoints :=
    (results.filter (fun r => 2000000000 < r.responseTime)).length
  if results.length = 0 then none
  else
    let avgResponseTime := totalResponseTime / results.length
    let alerts :=
      if 0 < unhealthy then
        [{ title := "🚨 Service Disruption Detected",
           content := toString unhealthy ++
             " endpoint(s) are currently down: " ++
             String.intercalate ", " unhealthyURLs,
           type := "alert", confidence := 1, generatedAt := now }]
      else []
    let warnings :=
      if 0 < slowEndpoints then
        [{ title := "⚠️ Performance Issues",
           content := toString slowEndpoints ++
             " endpoint(s) showing elevated response times (>2s). Consider investigating server load or network issues.",
           type := "warning", confidence := 9/10, generatedAt := now }]
      else []
    let successes :=
      if avgResponseTime < 500000000 ∧ unhealthy = 0 then
        [{ title := "✅ System Health Excellent",
           content := "All endpoints healthy with optimal average response time of " ++
             durationString (durationRound avgResponseTime 1000000) ++ ".",
           type := "success", confidence := 95/100, generatedAt := now }]
      else []
    some (alerts ++ warnings ++ successes ++
      [{ title := "💡 Monitoring Recommendation",
         content := "Consider setting up automated alerts for response times >3s and implementing health check redundancy across multiple regions.",
         type := "info", confidence := 8/10, generatedAt := now }])

/-- The raw JSON shape `parseInsights` unmarshals
(`{title, content, type, confidence}`). -/
structure RawInsight where
  title : String
  content : String
  type : String
  confidence : ℚ
deriving DecidableEq, Repr

/-- `GPTOSSClient.validateType`: unrecognized insight types default to
`"info"`. -/
def validateType (t : String) : String :=
  if t = "alert" ∨ t = "warning" ∨ t = "info" ∨ t = "success" then t
  else "info"

/-- `strings.Index` for a single character over a char list, with the
running index; Go's `-1` is modelled as `none`. -/
def charIndexFrom (c : Char) : List Char → Nat → Option Nat
  | [], _ => none
  | x :: xs, i => if x = c then some i else charIndexFrom c xs (i + 1)

/-- `strings.LastIndex` for a single character. -/
def charLastIndex (c : Char) (l : List Char) : Option Nat :=
  match charIndexFrom c l.reverse 0 with
  | none => none
  | some j => some (l.length - 1 - j)

/-- `GPTOSSClient.parseInsights`: locate the first `[` and the last `]`
in the response text, JSON-decode the enclosed substring, and normalize
each raw insight's type.  `json.Unmarshal` is external library code,
passed in as `jsonDecode` (`none` = unmarshal error). -/
def parseInsights (now : Nat)
    (jsonDecode : String → Option (List RawInsight)) (response : String) :
    List Insight :=
  let cs := response.toList
  match charIndexFrom '[' cs 0, charLastIndex ']' cs with
  | some s, some e =>
      if e ≤ s then []
      else
        let jsonStr := String.mk ((cs.drop s).take (e + 1 - s))
        match jsonDecode jsonStr with
        | none => []
        | some raws =>
            raws.map (fun raw =>
              { title := raw.title, content := raw.content,
                type := validateType raw.type,
                confidence := raw.confidence, generatedAt := now })
  | _, _ => []

/-- `GPTOSSClient.AnalyzeEndpoints`: the outcome of the external
`complete` call is the explicit argument `completeResult` (`.error e` when
the HTTP completion request failed with message `e`, `.ok text` when it
returned `text`).  On completion failure the fallback insights are
returned TOGETHER with the wrapped original error; on empty parse output
the fallback insights are returned with no error.  The overall `none`
(panic) case only arises from `fallbackInsights` on an empty result
list. -/
def analyzeEndpoints (now : Nat)
    (jsonDecode : String → Option (List RawInsight))
    (completeResult : Except String String) (results : List CheckResult) :
    Option (List Insight × Option String) :=
  match completeResult with
  | .error e =>
      (fallbackInsights now results).map
        (fun l => (l, some ("AI analysis failed, using fallback: " ++ e)))
  | .ok response =>
      let insights := parseInsights now jsonDecode response
      if insights.length = 0 then
        (fallbackInsights now results).map (fun l => (l, none))
      else some (insights, none)

/-- `AIInsight` from `cmd/web/main.go` (no confidence field). -/
structure AIInsight where
  title : String
  content : String
  type : String
deriving DecidableEq, Repr

/-- `WebServer.generateInsights` from `cmd/web/main.go`.  Same unguarded
`totalResponseTime / time.Duration(len(results))` as `fallbackInsights`:
on an empty result list Go panics with a division by zero, modelled as
`none`. -/
def generateInsights (results : List CheckResult) :
    Option (List AIInsight) :=
  let unhealthyURLs := (results.filter (fun r => !r.isHealthy)).map
    (fun r => r.url)
  let unhealthy := unhealthyURLs.length
  let totalResponseTime := (results.map (fun r => r.responseTime)).sum
  let slowEndpoints :=
    (results.filter (fun r => 2000000000 < r.responseTime)).length
  if results.length = 0 then none
  else
    let avgResponseTime := totalResponseTime / results.length
    let alerts :=
      if 0 < unhealthy then
        [{ title := "🚨 Service Disruption Detected",
           content := toString unhealthy ++
             " endpoint(s) are currently down. Immediate attention required for: [" ++
             String.intercalate " " unhealthyURLs ++ "]",
           type := "alert" : AIInsight }]
      else []
    let warnings :=
      if 0 < slowEndpoints then
        [{ title := "⚠️ Performance Degradation Alert",
           content := toString slowEndpoints ++
             " endpoint(s) showing elevated response times (>2s). This may indicate network congestion or server load issues.",
           type := "warning" : AIInsight }]
      else []
    let successes :=
      if avgResponseTime < 500000000 ∧ unhealthy = 0 then
        [{ title := "✅ Optimal System Performance",
           content := "All endpoints healthy with excellent average response time of " ++
             durationString (durationRound avgResponseTime 1000000) ++
             ". System operating within optimal parameters.",
           type := "success" : AIInsight }]
      else []
    let patterns :=
      if 1000000000 < avgResponseTime then
        [{ title := "📊 Pattern Analysis",
           content := "Average response time of " ++
             durationString (durationRound avgResponseTime 1000000) ++
             " suggests potential bottlenecks. Recommend investigating database query optimization and caching strategies.",
           type := "info" : AIInsight }]
      else []
    some (alerts ++ warnings ++ successes ++
      [{ title := "💡 Proactive Recommendation",
         content := "Based on current patterns, consider implementing automated scaling for endpoints with response times consistently above 1.5s to maintain optimal user experience.",
         type := "info" : AIInsight }] ++ patterns)

/-- One row of the `check_results` table
(`internal/storage/postgres.go`): url, status code, response time in
whole milliseconds, health flag, nullable error text, checked-at
timestamp. -/
structure StoredRow where
  url : String
  statusCode : Nat
  responseTimeMs : Nat
  isHealthy : Bool
  errorMessage : Option String
  checkedAt : Nat
deriving DecidableEq, Repr

/-- The column values `PostgresStore.SaveResult` INSERTs for a result:
`ResponseTime.Milliseconds()` truncates to whole milliseconds
(`d / 1e6`), and the error column is NULL exactly when `Error` is the
empty string. -/
def toRow (r : CheckResult) : StoredRow :=
  { url := r.url, statusCode := r.statusCode,
    responseTimeMs := r.responseTime / 1000000,
    isHealthy := r.isHealthy,
    errorMessage := if r.error = "" then none else some r.error,
    checkedAt := r.checkedAt }

/-- `PostgresStore.SaveResult`: one INSERT executed directly on the
connection pool `s.db` (autocommitted).  `execFails` injects database
failures: when the INSERT fails nothing is written and the error is
returned. -/
def saveResult (execFails : CheckResult → Bool) (db : List StoredRow)
    (r : CheckResult) : Except String (List StoredRow) :=
  if execFails r then .error "exec failed" else .ok (db ++ [toRow r])

/-- `PostgresStore.SaveResults`: Go begins a transaction `tx` and defers
`tx.Rollback()`, but the loop body calls `s.SaveResult`, whose INSERT runs
on `s.db` — NOT on `tx` — so every insert autocommits immediately; on a
mid-batch failure the function returns the error and the rollback undoes
nothing.  Returns the database state together with the returned error
(if any). -/
def saveResults (execFails : CheckResult → Bool) (db : List StoredRow) :
    List CheckResult → List StoredRow × Option String
  | [] => (db, none)
  | r :: rs =>
      match saveResult execFails db r with
      | .error e => (db, some e)
      | .ok db2 => saveResults execFails db2 rs

/-- The `CheckResult` that `PostgresStore.GetRecentResults` scans back
out of a row: the stored millisecond count is re-scaled by
`time.Millisecond`, and a NULL error column becomes the empty string. -/
def fromRow (row : StoredRow) : CheckResult :=
  { url := row.url, statusCode := row.statusCode,
    responseTime := row.responseTimeMs * 1000000,
    isHealthy := row.isHealthy,
    error := match row.errorMessage with
             | some e => e
             | none => "",
    checkedAt := row.checkedAt }

/-- Insert a row into a list kept in decreasing `checkedAt` order. -/
def insertDescByCheckedAt (row : StoredRow) :
    List StoredRow → List StoredRow
  | [] => [row]
  | x :: xs =>
      if x.checkedAt < row.checkedAt then row :: x :: xs
      else x :: insertDescByCheckedAt row xs

/-- `ORDER BY checked_at DESC` as an insertion sort. -/
def sortByCheckedAtDesc : List StoredRow → List StoredRow
  | [] => []
  | x :: xs => insertDescByCheckedAt x (sortByCheckedAtDesc xs)

/-- `PostgresStore.GetRecentResults`: the rows for `url`, most recent
first, limited to `lim`, scanned back into `CheckResult`s. -/
def getRecentResults (db : List StoredRow) (url : String) (lim : Nat) :
    List CheckResult :=
  ((sortByCheckedAtDesc (db.filter (fun row => row.url == url))).take
    lim).map fromRow

/-- `grpc.MonitorEndpoint` from `internal/grpc/server.go` (`int32`
interval and timeout fields modelled as `Int`). -/
structure MonitorEndpoint where
  id : String
  url : String
  intervalSeconds : Int
  timeoutSeconds : Int
  enabled : Bool
deriving DecidableEq, Repr

/-- Go map deletion (`delete(m, k)`) over an association list. -/
def alistErase {α : Type} (k : String) (l : List (String × α)) :
    List (String × α) :=
  l.filter (fun p => p.1 != k)

/-- Go map insertion (`m[k] = v`): overwrites any existing entry. -/
def alistInsert {α : Type} (k : String) (v : α)
    (l : List (String × α)) : List (String × α) :=
  (k, v) :: alistErase k l

/-- Go map lookup (`v, ok := m[k]`). -/
def alistLookup {α : Type} (k : String) (l : List (String × α)) :
    Option α :=
  match l.find? (fun p => p.1 == k) with
  | some p => some p.2
  | none => none

/-- The shared mutable state of `grpc.MonitorServer`: the endpoint map
and the stop-channel map (both guarded by `endpointsMutex` in Go; the
claims below are about the sequential map semantics).  Each
`make(chan bool, 1)` allocates a fresh channel; channel identities are
modelled by the counter `nextChan`, so token `n` denotes the channel
created by the `n`-th allocation. -/
structure ServerState where
  endpoints : List (String × MonitorEndpoint)
  stopChannels : List (String × Nat)
  nextChan : Nat
deriving DecidableEq, Repr

/-- `MonitorServer.startMonitoring`: allocate a fresh stop channel,
record it under the endpoint's id (overwriting any previous handle), and
spawn the polling goroutine (which holds the receive side of the fresh
channel; the loop body is outside these claims). -/
def startMonitoring (st : ServerState) (ep : MonitorEndpoint) :
    ServerState :=
  { st with
    stopChannels := alistInsert ep.id st.nextChan st.stopChannels,
    nextChan := st.nextChan + 1 }

/-- `MonitorServer.AddEndpoint`: the id is
`fmt.Sprintf("endpoint_%d", time.Now().Unix())`, a function of the
current unix second alone, passed here as `nowUnix`; the endpoint is
stored (overwriting any entry under the same id) and its polling loop is
started. -/
def addEndpoint (st : ServerState) (url : String)
    (intervalSec timeoutSec : Int) (nowUnix : Nat) :
    String × ServerState :=
  let endpointID := "endpoint_" ++ toString nowUnix
  let ep : MonitorEndpoint :=
    { id := endpointID, url := url, intervalSeconds := intervalSec,
      timeoutSeconds := timeoutSec, enabled := true }
  let st1 := { st with endpoints := alistInsert endpointID ep st.endpoints }
  (endpointID, startMonitoring st1 ep)

/-- `MonitorServer.StopMonitoring`: if a stop channel exists for the id,
close it and delete the id from both maps; otherwise do nothing. -/
def stopMonitoring (st : ServerState) (endpointID : String) :
    ServerState :=
  match alistLookup endpointID st.stopChannels with
  | some _ =>
      { st with
        stopChannels := alistErase endpointID st.stopChannels,
        endpoints := alistErase endpointID st.endpoints }
  | none => st

/-! ### Helper lemmas -/

/-- Reading every position of a list back in order reproduces the list. -/
theorem range_map_getD {α : Type} [Inhabited α] (l : List α) :
    (List.range l.length).map (fun i => l.getD i default) = l := by
  induction l with
  | nil => rfl
  | cons a t ih =>
      rw [List.length_cons, List.range_succ_eq_map, List.map_cons,
        List.map_map]
      simp only [Function.comp_def, List.getD_cons_succ, List.getD_cons_zero]
      rw [ih]

/-- After a Go map delete, the key is gone. -/
theorem alistLookup_erase_self {α : Type} (k : String)
    (l : List (String × α)) : alistLookup k (alistErase k l) = none := by
  induction l with
  | nil => rfl
  | cons p t ih =>
      by_cases h : p.1 = k
      · simpa [alistErase, alistLookup, List.filter, h] using ih
      · simp only [alistErase, List.filter] at ih ⊢
        rw [show (p.1 != k) = true by simpa using h]
        simp only [alistLookup, List.find?] at ih ⊢
        rw [show (p.1 == k) = false by simpa using h]
        exact ih

/-- A Go map insert is observable at its own key. -/
theorem alistLookup_insert_self {α : Type} (k : String) (v : α)
    (l : List (String × α)) : alistLookup k (alistInsert k v l) = some v := by
  simp [alistInsert, alistLookup, List.find?]

/-- Entries after a Go map insert: the new binding, or an old binding at
a different key. -/
theorem mem_alistInsert {α : Type} (k : String) (v : α)
    (l : List (String × α)) (p : String × α)
    (hp : p ∈ alistInsert k v l) : p = (k, v) ∨ (p ∈ l ∧ p.1 ≠ k) := by
  simp only [alistInsert, List.mem_cons, alistErase] at hp
  rcases hp with h | h
  · exact Or.inl h
  · have h2 := List.mem_filter.1 h
    exact Or.inr ⟨h2.1, by simpa using h2.2⟩

/-- Filter count over the fallback-insight list shape when only the first
conditional element satisfies the filter. -/
theorem quad_filter_alert {α : Type} (c1 c2 c3 : Prop) [Decidable c1]
    [Decidable c2] [Decidable c3] (a w s r : α) (p : α → Bool)
    (ha : p a = true) (hw : p w = false) (hs : p s = false)
    (hr : p r = false) :
    (((if c1 then [a] else []) ++ (if c2 then [w] else []) ++
        (if c3 then [s] else []) ++ [r]).filter p).length =
      if c1 then 1 else 0 := by
  split_ifs <;> simp [List.filter_append, List.filter_cons, ha, hw, hs, hr]

/-- Filter count when only the second conditional element matches. -/
theorem quad_filter_warning {α : Type} (c1 c2 c3 : Prop) [Decidable c1]
    [Decidable c2] [Decidable c3] (a w s r : α) (p : α → Bool)
    (ha : p a = false) (hw : p w = true) (hs : p s = false)
    (hr : p r = false) :
    (((if c1 then [a] else []) ++ (if c2 then [w] else []) ++
        (if c3 then [s] else []) ++ [r]).filter p).length =
      if c2 then 1 else 0 := by
  split_ifs <;> simp [List.filter_append, List.filter_cons, ha, hw, hs, hr]

/-- Filter count when only the third conditional element matches. -/
theorem quad_filter_success {α : Type} (c1 c2 c3 : Prop) [Decidable c1]
    [Decidable c2] [Decidable c3] (a w s r : α) (p : α → Bool)
    (ha : p a = false) (hw : p w = false) (hs : p s = true)
    (hr : p r = false) :
    (((if c1 then [a] else []) ++ (if c2 then [w] else []) ++
        (if c3 then [s] else []) ++ [r]).filter p).length =
      if c3 then 1 else 0 := by
  split_ifs <;> simp [List.filter_append, List.filter_cons, ha, hw, hs, hr]

/-- Filter count when only the unconditional trailing element matches. -/
theorem quad_filter_info {α : Type} (c1 c2 c3 : Prop) [Decidable c1]
    [Decidable c2] [Decidable c3] (a w s r : α) (p : α → Bool)
    (ha : p a = false) (hw : p w = false) (hs : p s = false)
    (hr : p r = true) :
    (((if c1 then [a] else []) ++ (if c2 then [w] else []) ++
        (if c3 then [s] else []) ++ [r]).filter p).length = 1 := by
  split_ifs <;> simp [List.filter_append, List.filter_cons, ha, hw, hs, hr]

/-- Membership in the fallback-insight list shape. -/
theorem quad_mem {α : Type} (c1 c2 c3 : Prop) [Decidable c1]
    [Decidable c2] [Decidable c3] (a w s r i : α) :
    i ∈ ((if c1 then [a] else []) ++ (if c2 then [w] else []) ++
        (if c3 then [s] else []) ++ [r]) ↔
      ((c1 ∧ i = a) ∨ (c2 ∧ i = w) ∨ (c3 ∧ i = s) ∨ i = r) := by
  split_ifs <;> simp_all

/-- The fallback-insight list always ends with its unconditional
element. -/
theorem quad_getLast {α : Type} (c1 c2 c3 : Prop) [Decidable c1]
    [Decidable c2] [Decidable c3] (a w s r : α) :
    ((if c1 then [a] else []) ++ (if c2 then [w] else []) ++
        (if c3 then [s] else []) ++ [r]).getLast? = some r := by
  split_ifs <;> rfl

/-- The fallback-insight list shape is never empty. -/
theorem quad_ne_nil {α : Type} (c1 c2 c3 : Prop) [Decidable c1]
    [Decidable c2] [Decidable c3] (a w s r : α) :
    ((if c1 then [a] else []) ++ (if c2 then [w] else []) ++
        (if c3 then [s] else []) ++ [r]) ≠ [] := by
  split_ifs <;> simp

/-! ### Claim theorems -/

/-- Claim C1 (code bug, evaluated at the failing input): `CheckMultiple`
stores the `i`-th result to ARRIVE from the shared channel at
`results[i]`, so output positions follow completion order, not input
order.  For the input `["A", "B"]` with a valid arrival order in which
B's check completes first, the returned URLs are `["B", "A"]`: position 0
holds `"B"` while the claim requires `result[0].url = "A"`. -/
theorem checkMultiple_arrival_order_at_failing_input :
    ([1, 0] : List Nat).Perm (List.range (["A", "B"] : List String).length) ∧
    (checkMultiple (fun u => check u 0 0 (.ok 200)) ["A", "B"]
      [1, 0]).map (fun r => r.url) = ["B", "A"] ∧
    (["B", "A"] : List String) ≠ ["A", "B"] := by
  refine ⟨by decide, rfl, by decide⟩

/-- Claim C2 (code bug, evaluated at the failing input): neither
`fallbackInsights` nor the web `generateInsights` guards the average
computation — both compute `totalResponseTime / time.Duration(len(results))`
before any emptiness check, which on the empty result list is a Go integer
division by zero, i.e. a runtime panic (modelled as `none`), not a return
of no insights. -/
theorem insights_generators_panic_on_empty_results :
    fallbackInsights 0 [] = none ∧ generateInsights [] = none :=
  ⟨rfl, rfl⟩

/-- Claim C5: `Check` never raises — every transport failure is captured
into the returned result with the transport's (non-empty) error text,
`statusCode = 0` and `isHealthy = false`; and whenever `error` is empty,
`isHealthy` holds exactly when `200 ≤ statusCode < 300`.  (Totality of
the embedding function `check` is the "never raises" part.) -/
theorem check_captures_failures_and_classifies_health (url : String)
    (start elapsed : Nat) (resp : Except String Nat)
    (hne : ∀ e, resp = .error e → e ≠ "") :
    (∀ e, resp = .error e →
      (check url start elapsed resp).error = e ∧
      (check url start elapsed resp).error ≠ "" ∧
      (check url start elapsed resp).statusCode = 0 ∧
      (check url start elapsed resp).isHealthy = false) ∧
    ((check url start elapsed resp).error = "" →
      ((check url start elapsed resp).isHealthy = true ↔
        200 ≤ (check url start elapsed resp).statusCode ∧
        (check url start elapsed resp).statusCode < 300)) := by
  cases resp with
  | error e =>
      refine ⟨?_, ?_⟩
      · intro e2 he
        injection he with h
        subst h
        exact ⟨rfl, hne _ rfl, rfl, rfl⟩
      · intro h
        exact absurd h (hne e rfl)
  | ok s =>
      refine ⟨?_, ?_⟩
      · intro e2 he
        exact absurd he (by simp)
      · intro _
        simp [check]

/-- Witness for C5: a concrete timed-out probe. -/
theorem check_captures_failures_and_classifies_health_witness :
    (check "https://example.com" 0 7
      (.error "dial tcp: i/o timeout")).error = "dial tcp: i/o timeout" ∧
    (check "https://example.com" 0 7
      (.error "dial tcp: i/o timeout")).error ≠ "" ∧
    (check "https://example.com" 0 7
      (.error "dial tcp: i/o timeout")).statusCode = 0 ∧
    (check "https://example.com" 0 7
      (.error "dial tcp: i/o timeout")).isHealthy = false := by
  have h := check_captures_failures_and_classifies_health
    "https://example.com" 0 7 (.error "dial tcp: i/o timeout")
    (by intro e he; injection he with h1; subst h1; decide)
  exact h.1 _ rfl

/-- Claim C6 (code bug, evaluated at the failing input): `SaveResults`
begins a transaction, but the loop's `SaveResult` INSERTs run on `s.db`
(autocommit), not on the transaction, so the deferred rollback undoes
nothing.  With a batch of two results whose second INSERT fails, the call
returns an error AND the first result's row remains persisted — the
stored state is not unchanged on error. -/
theorem saveResults_persists_prefix_despite_error :
    (saveResults (fun r => r.url == "B") []
      [{ url := "A", statusCode := 200, responseTime := 100000000,
         isHealthy := true, error := "", checkedAt := 1 },
       { url := "B", statusCode := 500, responseTime := 200000000,
         isHealthy := false, error := "", checkedAt := 2 }]).2 ≠ none ∧
    (saveResults (fun r => r.url == "B") []
      [{ url := "A", statusCode := 200, responseTime := 100000000,
         isHealthy := true, error := "", checkedAt := 1 },
       { url := "B", statusCode := 500, responseTime := 200000000,
         isHealthy := false, error := "", checkedAt := 2 }]).1 =
      [toRow { url := "A", statusCode := 200, responseTime := 100000000,
               isHealthy := true, error := "", checkedAt := 1 }] ∧
    [toRow { url := "A", statusCode := 200, responseTime := 100000000,
             isHealthy := true, error := "", checkedAt := 1 }] ≠
      ([] : List StoredRow) := by
  refine ⟨by decide, rfl, by decide⟩

/-- Counterexample to C7 as stated: a result with a 1.5 ms response time
is stored via `Milliseconds()` (truncation) as 1 ms and queried back as
1 ms, while rounding to millisecond precision (Go's
`Duration.Round(time.Millisecond)`) would give 2 ms. -/
theorem roundtrip_truncates_rather_than_rounds :
    saveResult (fun _ => false) []
      { url := "A", statusCode := 200, responseTime := 1500000,
        isHealthy := true, error := "", checkedAt := 1 } =
      .ok [{ url := "A", statusCode := 200, responseTimeMs := 1,
             isHealthy := true, errorMessage := none, checkedAt := 1 }] ∧
    (getRecentResults
      [{ url := "A", statusCode := 200, responseTimeMs := 1,
         isHealthy := true, errorMessage := none, checkedAt := 1 }]
      "A" 1).map (fun q => q.responseTime) = [1000000] ∧
    durationRound 1500000 1000000 = 2000000 ∧
    (1000000 : Nat) ≠ 2000000 := by
  refine ⟨rfl, by decide, by decide, by decide⟩

/-- Claim C7 as amended: a `CheckResult` saved and then queried by
`queryRecent(url, 1)` comes back with the same url, statusCode and
isHealthy, and a response time equal to the original TRUNCATED (not
rounded) to millisecond precision. -/
theorem saveResult_getRecentResults_roundtrip (r : CheckResult) :
    ∃ db, saveResult (fun _ => false) [] r = .ok db ∧
      ∃ q, getRecentResults db r.url 1 = [q] ∧
        q.url = r.url ∧ q.statusCode = r.statusCode ∧
        q.isHealthy = r.isHealthy ∧
        q.responseTime = r.responseTime / 1000000 * 1000000 := by
  refine ⟨[toRow r], rfl, fromRow (toRow r), ?_, rfl, rfl, rfl, rfl⟩
  simp [getRecentResults, toRow, sortByCheckedAtDesc, insertDescByCheckedAt,
    List.filter, fromRow]

/-- Claim C9: for every arrival order (any permutation of the index
list), `CheckMultiple` returns exactly `len(urls)` results and the
returned results are a permutation (equal multiset) of the per-URL check
outcomes. -/
theorem checkMultiple_length_and_perm (chk : String → CheckResult)
    (urls : List String) (order : List Nat)
    (hperm : order.Perm (List.range urls.length)) :
    (checkMultiple chk urls order).length = urls.length ∧
    (checkMultiple chk urls order).Perm (urls.map chk) := by
  constructor
  · have := hperm.length_eq
    simp only [List.length_range] at this
    simp [checkMultiple, this]
  · have h2 := hperm.map (fun i => (urls.map chk).getD i default)
    have h3 : (List.range urls.length).map
        (fun i => (urls.map chk).getD i default) = urls.map chk := by
      have hl : (urls.map chk).length = urls.length := by simp
      rw [← hl]
      exact range_map_getD (urls.map chk)
    rw [h3] at h2
    exact h2

/-- Witness for C9: two URLs delivered in reversed arrival order. -/
theorem checkMultiple_length_and_perm_witness :
    (checkMultiple (fun u => check u 0 0 (.ok 200)) ["A", "B"]
      [1, 0]).length = 2 ∧
    (checkMultiple (fun u => check u 0 0 (.ok 200)) ["A", "B"]
      [1, 0]).Perm ((["A", "B"] : List String).map
        (fun u => check u 0 0 (.ok 200))) :=
  checkMultiple_length_and_perm (fun u => check u 0 0 (.ok 200))
    ["A", "B"] [1, 0] (by decide)

/-- Claim C3: on every non-empty result list the rule-based fallback
generator yields exactly one `alert` insight (confidence 1.0, naming the
failing URLs) iff some result is unhealthy; exactly one `warning` insight
(confidence 0.9) iff some response time exceeds 2 s; exactly one
`success` insight (confidence 0.95) iff all results are healthy and the
average response time is below 500 ms (stated division-free as
`sum < 500ms * n`); exactly one `info` insight, which is the trailing
generic recommendation (confidence 0.8); and hence at least one
insight. -/
theorem fallbackInsights_rule_characterization (now : Nat)
    (results : List CheckResult) (hne : results ≠ []) :
    ∃ l, fallbackInsights now results = some l ∧
      ((l.filter (fun i => i.type == "alert")).length =
        if ∃ r ∈ results, r.isHealthy = false then 1 else 0) ∧
      (∀ i ∈ l, i.type = "alert" →
        i.confidence = 1 ∧
        i.content =
          toString (results.filter (fun r => !r.isHealthy)).length ++
            " endpoint(s) are currently down: " ++
            String.intercalate ", "
              ((results.filter (fun r => !r.isHealthy)).map
                (fun r => r.url))) ∧
      ((l.filter (fun i => i.type == "warning")).length =
        if ∃ r ∈ results, 2000000000 < r.responseTime then 1 else 0) ∧
      (∀ i ∈ l, i.type = "warning" → i.confidence = 9/10) ∧
      ((l.filter (fun i => i.type == "success")).length =
        if (∀ r ∈ results, r.isHealthy = true) ∧
            (results.map (fun r => r.responseTime)).sum <
              500000000 * results.length then 1 else 0) ∧
      (∀ i ∈ l, i.type = "success" → i.confidence = 95/100) ∧
      (l.filter (fun i => i.type == "info")).length = 1 ∧
      l.getLast? = some
        { title := "💡 Monitoring Recommendation",
          content := "Consider setting up automated alerts for response times >3s and implementing health check redundancy across multiple regions.",
          type := "info", confidence := 8/10, generatedAt := now } ∧
      l ≠ [] := by
  have hlen0 : ¬ results.length = 0 := fun h => hne (List.length_eq_zero.1 h)
  have hnpos : 0 < results.length := Nat.pos_of_ne_zero hlen0
  have hU : (∃ r ∈ results, r.isHealthy = false) ↔
      0 < ((results.filter (fun r => !r.isHealthy)).map
        (fun r => r.url)).length := by
    rw [List.length_map, ← List.countP_eq_length_filter,
      List.countP_pos_iff]
    simp [Bool.not_eq_true']
  have hW : (∃ r ∈ results, 2000000000 < r.responseTime) ↔
      0 < (results.filter
        (fun r => 2000000000 < r.responseTime)).length := by
    rw [← List.countP_eq_length_filter, List.countP_pos_iff]
    simp
  have hS : ((∀ r ∈ results, r.isHealthy = true) ∧
      (results.map (fun r => r.responseTime)).sum <
        500000000 * results.length) ↔
      ((results.map (fun r => r.responseTime)).sum / results.length <
          500000000 ∧
        ((results.filter (fun r => !r.isHealthy)).map
          (fun r => r.url)).length = 0) := by
    rw [Nat.div_lt_iff_lt_mul hnpos, List.length_map,
      List.length_eq_zero, List.filter_eq_nil_iff]
    constructor
    · rintro ⟨h1, h2⟩
      exact ⟨h2, fun a ha => by simp [h1 a ha]⟩
    · rintro ⟨h1, h2⟩
      refine ⟨fun a ha => ?_, h1⟩
      simpa using h2 a ha
  simp only [fallbackInsights]
  rw [if_neg hlen0]
  refine ⟨_, rfl, ?_, ?_, ?_, ?_, ?_, ?_, ?_, ?_, ?_⟩
  · simp only [hU]
    exact quad_filter_alert _ _ _ _ _ _ _ _ rfl rfl rfl rfl
  · intro i hi ht
    rw [quad_mem] at hi
    rcases hi with ⟨_, rfl⟩ | ⟨_, rfl⟩ | ⟨_, rfl⟩ | rfl
    · exact ⟨rfl, by simp [List.length_map]⟩
    · simp at ht
    · simp at ht
    · simp at ht
  · simp only [hW]
    exact quad_filter_warning _ _ _ _ _ _ _ _ rfl rfl rfl rfl
  · intro i hi ht
    rw [quad_mem] at hi
    rcases hi with ⟨_, rfl⟩ | ⟨_, rfl⟩ | ⟨_, rfl⟩ | rfl
    · simp at ht
    · rfl
    · simp at ht
    · simp at ht
  · simp only [hS]
    exact quad_filter_success _ _ _ _ _ _ _ _ rfl rfl rfl rfl
  · intro i hi ht
    rw [quad_mem] at hi
    rcases hi with ⟨_, rfl⟩ | ⟨_, rfl⟩ | ⟨_, rfl⟩ | rfl
    · simp at ht
    · simp at ht
    · rfl
    · simp at ht
  · exact quad_filter_info _ _ _ _ _ _ _ _ rfl rfl rfl rfl
  · exact quad_getLast _ _ _ _ _ _ _
  · exact quad_ne_nil _ _ _ _ _ _ _

/-- Witness for C3, on the spec's own scenario: a healthy 100 ms endpoint
and an unhealthy 5 s endpoint yield exactly one alert, one warning, one
trailing info and no success insight. -/
theorem fallbackInsights_rule_characterization_witness :
    ∃ l, fallbackInsights 0
        [{ url := "A", statusCode := 200, responseTime := 100000000,
           isHealthy := true, error := "", checkedAt := 0 },
         { url := "B", statusCode := 0, responseTime := 5000000000,
           isHealthy := false, error := "timeout", checkedAt := 0 }] =
        some l ∧
      (l.filter (fun i => i.type == "alert")).length = 1 ∧
      (l.filter (fun i => i.type == "warning")).length = 1 ∧
      (l.filter (fun i => i.type == "success")).length = 0 ∧
      (l.filter (fun i => i.type == "info")).length = 1 ∧ l ≠ [] := by
  obtain ⟨l, hl, h1, _, h2, _, h3, _, h4, _, h6⟩ :=
    fallbackInsights_rule_characterization 0
      [{ url := "A", statusCode := 200, responseTime := 100000000,
         isHealthy := true, error := "", checkedAt := 0 },
       { url := "B", statusCode := 0, responseTime := 5000000000,
         isHealthy := false, error := "timeout", checkedAt := 0 }]
      (by decide)
  refine ⟨l, hl, ?_, ?_, ?_, h4, h6⟩
  · rw [h1]
    decide
  · rw [h2]
    decide
  · rw [h3]
    decide

/-- Counterexample to C4 as stated ("for every list of results"): on the
EMPTY result list with a failed completion call, `AnalyzeEndpoints`
reaches the unguarded division in `fallbackInsights` and panics (`none`)
instead of returning the fallback insights alongside the error. -/
theorem analyzeEndpoints_empty_results_panics :
    analyzeEndpoints 0 (fun _ => none) (Except.error "connection refused")
      [] = none := rfl

/-- Claim C4 as amended (restricted to non-empty result lists):
`AnalyzeEndpoints` never propagates a completion-service failure or
empty parse output as a hard error — it returns the rule-based fallback
insights, with the wrapped original error alongside when the service
call itself failed and with no error when only parsing produced nothing;
in every case the caller receives a non-empty insight list. -/
theorem analyzeEndpoints_degrades_to_fallback (now : Nat)
    (jsonDecode : String → Option (List RawInsight))
    (completeResult : Except String String) (results : List CheckResult)
    (hne : results ≠ []) :
    ∃ fb, fallbackInsights now results = some fb ∧ fb ≠ [] ∧
      (∀ e, completeResult = .error e →
        analyzeEndpoints now jsonDecode completeResult results =
          some (fb, some ("AI analysis failed, using fallback: " ++ e))) ∧
      (∀ response, completeResult = .ok response →
        (parseInsights now jsonDecode response = [] →
          analyzeEndpoints now jsonDecode completeResult results =
            some (fb, none)) ∧
        (parseInsights now jsonDecode response ≠ [] →
          analyzeEndpoints now jsonDecode completeResult results =
            some (parseInsights now jsonDecode response, none))) ∧
      (∃ l e, analyzeEndpoints now jsonDecode completeResult results =
        some (l, e) ∧ l ≠ []) := by
  have hlen0 : ¬ results.length = 0 := fun h => hne (List.length_eq_zero.1 h)
  have hfb : ∃ fb, fallbackInsights now results = some fb ∧ fb ≠ [] := by
    simp only [fallbackInsights]
    rw [if_neg hlen0]
    exact ⟨_, rfl, quad_ne_nil _ _ _ _ _ _ _⟩
  obtain ⟨fb, hfb1, hfb2⟩ := hfb
  refine ⟨fb, hfb1, hfb2, ?_, ?_, ?_⟩
  · intro e he
    subst he
    simp [analyzeEndpoints, hfb1]
  · intro response hr
    subst hr
    constructor
    · intro hp
      simp [analyzeEndpoints, hp, hfb1]
    · intro hp
      have h0 : ¬ (parseInsights now jsonDecode response).length = 0 := by
        simpa [List.length_eq_zero] using hp
      simp [analyzeEndpoints, h0]
  · cases completeResult with
    | error e =>
        refine ⟨fb, some ("AI analysis failed, using fallback: " ++ e),
          ?_, hfb2⟩
        simp [analyzeEndpoints, hfb1]
    | ok response =>
        by_cases hp : parseInsights now jsonDecode response = []
        · exact ⟨fb, none, by simp [analyzeEndpoints, hp, hfb1], hfb2⟩
        · refine ⟨parseInsights now jsonDecode response, none, ?_, hp⟩
          have h0 : ¬ (parseInsights now jsonDecode response).length = 0 := by
            simpa [List.length_eq_zero] using hp
          simp [analyzeEndpoints, h0]

/-- Witness for C4: a failed completion call over one healthy result
degrades to the fallback insights with the wrapped error alongside. -/
theorem analyzeEndpoints_degrades_to_fallback_witness :
    ∃ fb, fallbackInsights 0
        [{ url := "A", statusCode := 200, responseTime := 100000000,
           isHealthy := true, error := "", checkedAt := 0 }] = some fb ∧
      fb ≠ [] ∧
      analyzeEndpoints 0 (fun _ => none) (Except.error "boom")
        [{ url := "A", statusCode := 200, responseTime := 100000000,
           isHealthy := true, error := "", checkedAt := 0 }] =
        some (fb, some ("AI analysis failed, using fallback: " ++ "boom")) := by
  obtain ⟨fb, h1, h2, h3, _, _⟩ := analyzeEndpoints_degrades_to_fallback 0
    (fun _ => none) (.error "boom")
    [{ url := "A", statusCode := 200, responseTime := 100000000,
       isHealthy := true, error := "", checkedAt := 0 }] (by decide)
  exact ⟨fb, h1, h2, h3 "boom" rfl⟩

/-- Claim C8: `StopMonitoring` is idempotent — stopping an id with no
registered stop channel leaves the state unchanged (and returns no
error, the Go function having no error path at all); stopping a
registered id removes it from both the stop-channel map and the endpoint
map; and a second stop of the same id is a no-op. -/
theorem stopMonitoring_idempotent (st : ServerState)
    (endpointID : String) :
    (alistLookup endpointID st.stopChannels = none →
      stopMonitoring st endpointID = st) ∧
    alistLookup endpointID (stopMonitoring st endpointID).stopChannels =
      none ∧
    (alistLookup endpointID st.stopChannels ≠ none →
      alistLookup endpointID (stopMonitoring st endpointID).endpoints =
        none) ∧
    stopMonitoring (stopMonitoring st endpointID) endpointID =
      stopMonitoring st endpointID := by
  have hstop : alistLookup endpointID
      (stopMonitoring st endpointID).stopChannels = none := by
    unfold stopMonitoring
    cases h : alistLookup endpointID st.stopChannels with
    | none => exact h
    | some c => exact alistLookup_erase_self endpointID st.stopChannels
  have hnoop : ∀ s : ServerState,
      alistLookup endpointID s.stopChannels = none →
      stopMonitoring s endpointID = s := by
    intro s h
    unfold stopMonitoring
    rw [h]
  refine ⟨hnoop st, hstop, ?_, hnoop _ hstop⟩
  intro h
  unfold stopMonitoring
  cases hc : alistLookup endpointID st.stopChannels with
  | none => exact absurd hc h
  | some c => exact alistLookup_erase_self endpointID st.endpoints

/-- Witness for C8: one registered endpoint, stopped twice. -/
theorem stopMonitoring_idempotent_witness :
    alistLookup "endpoint_5"
      (stopMonitoring
        ⟨[("endpoint_5", ⟨"endpoint_5", "https://x", 15, 5, true⟩)],
         [("endpoint_5", 0)], 1⟩ "endpoint_5").stopChannels = none ∧
    alistLookup "endpoint_5"
      (stopMonitoring
        ⟨[("endpoint_5", ⟨"endpoint_5", "https://x", 15, 5, true⟩)],
         [("endpoint_5", 0)], 1⟩ "endpoint_5").endpoints = none ∧
    stopMonitoring
      (stopMonitoring
        ⟨[("endpoint_5", ⟨"endpoint_5", "https://x", 15, 5, true⟩)],
         [("endpoint_5", 0)], 1⟩ "endpoint_5") "endpoint_5" =
      stopMonitoring
        ⟨[("endpoint_5", ⟨"endpoint_5", "https://x", 15, 5, true⟩)],
         [("endpoint_5", 0)], 1⟩ "endpoint_5" := by
  have h := stopMonitoring_idempotent
    ⟨[("endpoint_5", ⟨"endpoint_5", "https://x", 15, 5, true⟩)],
     [("endpoint_5", 0)], 1⟩ "endpoint_5"
  exact ⟨h.2.1, h.2.2.1 (by decide), h.2.2.2⟩

/-- Claim C10: the generated endpoint id depends only on the unix-second
timestamp, so two `AddEndpoint` calls in the same second (for any two
URLs) return the SAME id; the second registration overwrites the first
in both the endpoint map and the stop-channel map, so the stop channel
allocated for the first polling loop (token `st.nextChan`) has no
remaining handle in the registry while that loop was never signalled.
The hypothesis is the allocator invariant: every recorded channel token
predates the next fresh one. -/
theorem addEndpoint_same_second_collision (st : ServerState)
    (u1 u2 : String) (iv1 to1 iv2 to2 : Int) (t : Nat)
    (hinv : ∀ p ∈ st.stopChannels, p.2 < st.nextChan) :
    ∃ id1 st1 id2 st2,
      addEndpoint st u1 iv1 to1 t = (id1, st1) ∧
      addEndpoint st1 u2 iv2 to2 t = (id2, st2) ∧
      id1 = id2 ∧
      alistLookup id1 st2.endpoints =
        some { id := id1, url := u2, intervalSeconds := iv2,
               timeoutSeconds := to2, enabled := true } ∧
      alistLookup id1 st1.stopChannels = some st.nextChan ∧
      alistLookup id1 st2.stopChannels = some (st.nextChan + 1) ∧
      ∀ p ∈ st2.stopChannels, p.2 ≠ st.nextChan := by
  refine ⟨_, _, _, _, rfl, rfl, rfl, ?_, ?_, ?_, ?_⟩
  · exact alistLookup_insert_self _ _ _
  · exact alistLookup_insert_self _ _ _
  · exact alistLookup_insert_self _ _ _
  · intro p hp
    have hp2 : p ∈ alistInsert ("endpoint_" ++ toString t)
        (st.nextChan + 1)
        (alistInsert ("endpoint_" ++ toString t) st.nextChan
          st.stopChannels) := hp
    rcases mem_alistInsert _ _ _ _ hp2 with h | ⟨h2, hk⟩
    · subst h
      simp
    · rcases mem_alistInsert _ _ _ _ h2 with h | ⟨h3, _⟩
      · exact absurd (congrArg Prod.fst h) hk
      · exact Nat.ne_of_lt (hinv p h3)

/-- Witness for C10: two registrations in the same second on an empty
registry collide on the id and leave the first loop's channel (token 0)
without a handle. -/
theorem addEndpoint_same_second_collision_witness :
    ∃ id1 st1 id2 st2,
      addEndpoint ⟨[], [], 0⟩ "https://a.example" 15 5 1700000000 =
        (id1, st1) ∧
      addEndpoint st1 "https://b.example" 30 10 1700000000 = (id2, st2) ∧
      id1 = id2 ∧
      alistLookup id1 st2.endpoints =
        some { id := id1, url := "https://b.example", intervalSeconds := 30,
               timeoutSeconds := 10, enabled := true } ∧
      alistLookup id1 st1.stopChannels = some 0 ∧
      alistLookup id1 st2.stopChannels = some (0 + 1) ∧
      ∀ p ∈ st2.stopChannels, p.2 ≠ 0 :=
  addEndpoint_same_second_collision ⟨[], [], 0⟩ "https://a.example"
    "https://b.example" 15 5 30 10 1700000000 (by simp)

end ApiMonitor
